import Mathlib

/-!
Shallow embedding of pyfacedetect.py (classes OcvDetector and FaceDetect).

The program is Python 2: division of two ints with the / operator is floor
division, modelled here by Nat division.  Instance attributes that a method
may read before any assignment (self.image, self._faces, self.image_scale)
are modelled as Option fields, none meaning "attribute not set"; reading an
unset attribute raises AttributeError in Python, modelled by Except.error.
The Python value None stored in an attribute is the inner Option layer of
the image field (accessing .width on None also raises AttributeError).

External OpenCV calls are abstracted: cv.HaarDetectObjects results are
parameters (the raw rectangle lists of the frontal and profile cascades);
cv.Rectangle drawing is recorded on the image as a list of drawn
rectangles; cv.SaveImage is recorded as an event.
-/

/-- A rectangle drawn on an image by cv.Rectangle: the two corner points,
the border color and the border width (source line 198). -/
structure DrawnRect where
  pt1 : Nat × Nat
  pt2 : Nat × Nat
  rgb : Nat × Nat × Nat
  lineWidth : Nat
deriving DecidableEq, Repr

/-- A cv.IplImage: its dimensions, plus the rectangles drawn onto it so far
(the pixel buffer is abstracted; overlay drawing only appends rectangles). -/
structure IplImage where
  width : Nat
  height : Nat
  drawn : List DrawnRect
deriving DecidableEq, Repr

/-- One raw detection returned by cv.HaarDetectObjects: the tuple
((x, y, w, h), n) destructured at source line 140. -/
structure RawDet where
  x : Nat
  y : Nat
  w : Nat
  h : Nat
  n : Nat
deriving DecidableEq, Repr

/-- The dict appended to self._faces at source lines 141-142:
keys x, y, width, height, neighbors. -/
structure FaceRect where
  x : Nat
  y : Nat
  width : Nat
  height : Nat
  neighbors : Nat
deriving DecidableEq, Repr

/-- Python errors these code paths can raise.  The code itself only raises
attribute and type errors; the constructors noImageLoadedError and
deviceUnavailableError are the dedicated error kinds named by the spec's
error taxonomy — they are included so claims about them can be stated, and
no definition translated from the source ever produces them. -/
inductive PyError where
  | attributeError (attr : String)
  | typeError (what : String)
  | noImageLoadedError
  | deviceUnavailableError
deriving DecidableEq, Repr

/-- Observable external effects, used to count detection passes, drawing
calls and file writes. -/
inductive Event where
  | detectPass (include_profile_faces : Bool)
  | drawRect (r : DrawnRect)
  | writeImage (filename : String) (img : Option IplImage)
deriving DecidableEq, Repr

/-- The instance state of a FaceDetect object (which inherits OcvDetector).
Fields image, image_scale and capture start unset; _faces starts unset
(FaceDetect.__init__ sets only is_overlayed, source lines 152-155). -/
structure FaceDetectState where
  image : Option (Option IplImage)
  image_scale : Option Nat
  _faces : Option (List FaceRect)
  is_overlayed : Bool
  capture : Option Nat
deriving DecidableEq, Repr

/-- The state produced by FaceDetect.__init__ (source lines 152-155). -/
def FaceDetect.init : FaceDetectState :=
  { image := none, image_scale := none, _faces := none,
    is_overlayed := false, capture := none }

/-- Module constant MIN_FACE_SIZE (source line 58). -/
def MIN_FACE_SIZE : Nat × Nat := (20, 20)

/-- Module constant MIN_NEIGHBORS (source line 60). -/
def MIN_NEIGHBORS : Nat := 3

/-- Module constant SCAN_FOR_PROFILES (source line 61); it is the default
value of detect_faces's include_profile_faces argument. -/
def SCAN_FOR_PROFILES : Bool := false

/-- OcvDetector.load_image (source lines 68-85).  The argument is an Option
because cv.QueryFrame can hand it Python None, on which reading .width
raises AttributeError after self.image has been assigned.  Python 2 floor
division of ints is Nat division. -/
def load_image (s : FaceDetectState) (image : Option IplImage) :
    Except PyError FaceDetectState :=
  let s1 := { s with image := some image }
  match image with
  | none => .error (.attributeError "width")
  | some im =>
    if im.width > 1000 ∨ im.height > 1000 then
      if im.width > im.height then
        .ok { s1 with image_scale := some (im.width / 1000) }
      else
        .ok { s1 with image_scale := some (im.height / 1000) }
    else
      .ok { s1 with image_scale := some 1 }

/-- OcvDetector._prepare_image (source lines 88-107): returns the
dimensions of the scaled grayscale copy handed to the classifier,
cv.Round(width / image_scale) by cv.Round(height / image_scale); both
operands are ints so the Python division is already floor division.
Reads self.image (line 94) then self.image_scale (line 97). -/
def _prepare_image (s : FaceDetectState) : Except PyError (Nat × Nat) :=
  match s.image with
  | none => .error (.attributeError "image")
  | some none => .error (.attributeError "width")
  | some (some im) =>
    match s.image_scale with
    | none => .error (.attributeError "image_scale")
    | some sc => .ok (im.width / sc, im.height / sc)

/-- The loop body of source lines 140-142: scale every field of a raw
detection by self.image_scale, keep the neighbor count. -/
def scaleDet (sc : Nat) (d : RawDet) : FaceRect :=
  { x := d.x * sc, y := d.y * sc, width := d.w * sc, height := d.h * sc,
    neighbors := d.n }

/-- OcvDetector.detect_faces (source lines 109-144).  frontal and profile
are the raw results of the two cv.HaarDetectObjects calls on the prepared
image (external classifier, abstracted as parameters); profile is consulted
only when include_profile_faces is true, and is appended after the frontal
results by faces.extend.  Returns the new state, the returned list
(self._faces) and the event trace. -/
def detect_faces (frontal profile : List RawDet)
    (include_profile_faces : Bool) (s : FaceDetectState) :
    Except PyError (FaceDetectState × List FaceRect × List Event) :=
  let s1 := { s with _faces := some ([] : List FaceRect) }
  match _prepare_image s1 with
  | .error e => .error e
  | .ok _scaled =>
    match s1.image_scale with
    | none => .error (.attributeError "image_scale")
    | some sc =>
      let faces := frontal ++ (if include_profile_faces then profile else [])
      let fs := if faces.isEmpty then ([] : List FaceRect)
                else faces.map (scaleDet sc)
      .ok ({ s1 with _faces := some fs }, fs,
           [Event.detectPass include_profile_faces])

/-- FaceDetect.image_from_input's view of the capture device: whether
cv.CaptureFromCAM returns a truthy capture object, and what
cv.QueryFrame yields from it (none is Python None: no frame). -/
structure CaptureDevice where
  opens : Bool
  frame : Option IplImage
deriving DecidableEq, Repr

/-- FaceDetect.image_from_input (source lines 167-178).  When the capture
object is falsy the method silently does nothing.  Otherwise it queries one
frame, delegates to load_image (which raises AttributeError when the frame
is None), and only then stores the capture handle on the instance. -/
def image_from_input (dev : CaptureDevice) (input_id : Nat)
    (s : FaceDetectState) : Except PyError FaceDetectState :=
  if dev.opens then
    match load_image s dev.frame with
    | .error e => .error e
    | .ok s1 => .ok { s1 with capture := some input_id }
  else
    .ok s

/-- The cv.Rectangle call of source lines 196-198 for one face dict:
pt1 = (x, y), pt2 = (x + width, y + height), border color and width. -/
def faceRectToDrawn (rgb_border : Nat × Nat × Nat) (width : Nat)
    (f : FaceRect) : DrawnRect :=
  { pt1 := (f.x, f.y), pt2 := (f.x + f.width, f.y + f.height),
    rgb := rgb_border, lineWidth := width }

/-- FaceDetect.overlay_image (source lines 180-200).  Reads self._faces
(AttributeError when detect_faces has never assigned it); when the list is
falsy (empty) it calls self.detect_faces() with the default argument
SCAN_FOR_PROFILES; when the list is then non-empty it draws one rectangle
per face onto self.image; finally sets is_overlayed and returns self.image
(an AttributeError when image is unset).  frontal and profile parametrize
the classifier for the possible inner detect_faces call. -/
def overlay_image (frontal profile : List RawDet)
    (rgb_border : Nat × Nat × Nat) (width : Nat) (s : FaceDetectState) :
    Except PyError (FaceDetectState × List Event) :=
  match s._faces with
  | none => .error (.attributeError "_faces")
  | some fs0 =>
    let step1 : Except PyError (FaceDetectState × List Event) :=
      if fs0.isEmpty then
        match detect_faces frontal profile SCAN_FOR_PROFILES s with
        | .error e => .error e
        | .ok (s1, _, evs) => .ok (s1, evs)
      else .ok (s, [])
    match step1 with
    | .error e => .error e
    | .ok (s1, evs1) =>
      match s1._faces with
      | none => .error (.attributeError "_faces")
      | some fs =>
        let step2 : Except PyError (FaceDetectState × List Event) :=
          if fs.isEmpty then .ok (s1, [])
          else
            match s1.image with
            | none => .error (.attributeError "image")
            | some none => .error (.typeError "Rectangle")
            | some (some im) =>
              let rects := fs.map (faceRectToDrawn rgb_border width)
              .ok ({ s1 with image := some (some
                       { im with drawn := im.drawn ++ rects }) },
                   rects.map Event.drawRect)
        match step2 with
        | .error e => .error e
        | .ok (s2, evs2) =>
          let s3 := { s2 with is_overlayed := true }
          match s3.image with
          | none => .error (.attributeError "image")
          | some _ => .ok (s3, evs1 ++ evs2)

/-- FaceDetect.save_image (source lines 202-212): when not yet overlayed it
first calls overlay_image with its default arguments (red border, width 2),
then writes self.image to the file. -/
def save_image (frontal profile : List RawDet) (filename : String)
    (s : FaceDetectState) : Except PyError (FaceDetectState × List Event) :=
  let step1 : Except PyError (FaceDetectState × List Event) :=
    if s.is_overlayed then .ok (s, [])
    else overlay_image frontal profile (255, 0, 0) 2 s
  match step1 with
  | .error e => .error e
  | .ok (s1, evs1) =>
    match s1.image with
    | none => .error (.attributeError "image")
    | some img => .ok (s1, evs1 ++ [Event.writeImage filename img])

/-- json serialization of one face dict as json.dumps renders it, with the
keys in the insertion order of source lines 141-142 (CPython 2's dict
iteration order for these five short string keys is not part of any claim;
only the empty list's rendering is). -/
def dumpFace (f : FaceRect) : String :=
  "\x7b\"x\": " ++ toString f.x ++ ", \"y\": " ++ toString f.y ++
  ", \"width\": " ++ toString f.width ++ ", \"height\": " ++
  toString f.height ++ ", \"neighbors\": " ++ toString f.neighbors ++ "\x7d"

/-- json.dumps on the list self._faces: a json array, items separated by
a comma and a space; the empty list renders as two brackets. -/
def dumps (fs : List FaceRect) : String :=
  "[" ++ String.intercalate ", " (fs.map dumpFace) ++ "]"

/-- FaceDetect.to_json (source lines 221-225): dumps(self._faces), an
AttributeError when _faces was never assigned. -/
def to_json (s : FaceDetectState) : Except PyError String :=
  match s._faces with
  | none => .error (.attributeError "_faces")
  | some fs => .ok (dumps fs)

/-- Helper: load_image on a non-None image always succeeds, and the two
nested ifs of the source compute exactly max 1 (max width height / 1000)
in Nat (floor) division. -/
theorem load_image_some_eq (s : FaceDetectState) (im : IplImage) :
    load_image s (some im) = Except.ok { s with
      image := some (some im)
      image_scale := some (max 1 (max im.width im.height / 1000)) } := by
  unfold load_image
  dsimp only
  split_ifs with h1 h2
  · have hx : im.width / 1000 = max 1 (max im.width im.height / 1000) := by
      omega
    rw [hx]
  · have hx : im.height / 1000 = max 1 (max im.width im.height / 1000) := by
      omega
    rw [hx]
  · have hx : max 1 (max im.width im.height / 1000) = 1 := by omega
    rw [hx]

/-- C1: every image handed to load_image gets the stored scale factor
max 1 (max width height / 1000), the division being Python 2 integer
(floor) division; in particular any image with both dimensions at most
1000 gets scale factor exactly 1, and a 2000 by 1000 image gets 2. -/
theorem C1_scale_factor_formula (s : FaceDetectState) (im : IplImage) :
    ∃ s', load_image s (some im) = Except.ok s' ∧
      s'.image_scale = some (max 1 (max im.width im.height / 1000)) ∧
      (max im.width im.height ≤ 1000 → s'.image_scale = some 1) ∧
      (im.width = 2000 → im.height = 1000 → s'.image_scale = some 2) := by
  refine ⟨_, load_image_some_eq s im, rfl, ?_, ?_⟩
  · intro h
    simp only [Option.some.injEq]
    omega
  · intro hw hh
    simp only [Option.some.injEq, hw, hh]
    omega

/-- Witness: a concrete 2000 by 1000 image gets scale factor 2. -/
theorem C1_scale_factor_formula_witness :
    ∃ s', load_image FaceDetect.init (some ⟨2000, 1000, []⟩) = Except.ok s' ∧
      s'.image_scale = some 2 := by
  obtain ⟨s', h1, _, _, h4⟩ :=
    C1_scale_factor_formula FaceDetect.init ⟨2000, 1000, []⟩
  exact ⟨s', h1, h4 rfl rfl⟩

/-- A concrete 800 by 600 image for concrete evaluations. -/
def img800 : IplImage := { width := 800, height := 600, drawn := [] }

/-- The state after loading img800 into a fresh FaceDetect instance:
scale factor 1, detection never run. -/
def st800 : FaceDetectState :=
  { image := some (some img800), image_scale := some 1, _faces := none,
    is_overlayed := false, capture := none }

/-- A concrete 2000 by 1000 image. -/
def img2000 : IplImage := { width := 2000, height := 1000, drawn := [] }

/-- A loaded state with scale factor 2 (img2000 loaded, detection not run). -/
def st2000 : FaceDetectState :=
  { image := some (some img2000), image_scale := some 2, _faces := none,
    is_overlayed := false, capture := none }

/-- C2 refuted on the code: loading a 1999 by 1 image stores scale factor
1999 / 1000 = 1, so max(width, height) / image_scale is 1999, above the
claimed bound 1000, and the prepared image handed to the classifier is
still 1999 pixels wide — contradicting the module docstring "all images
above 1000width or 1000h are scaled to 1000w or 1000h max". -/
theorem C2_invariant_fails_at_1999 :
    load_image FaceDetect.init (some ⟨1999, 1, []⟩) = Except.ok
      { image := some (some ⟨1999, 1, []⟩), image_scale := some 1,
        _faces := none, is_overlayed := false, capture := none } ∧
    ¬(max 1999 1 / 1 ≤ 1000) ∧
    _prepare_image
      { image := some (some ⟨1999, 1, []⟩), image_scale := some 1,
        _faces := none, is_overlayed := false, capture := none } =
      Except.ok (1999, 1) := by
  refine ⟨rfl, by omega, rfl⟩

/-- C3 refuted on the code: on a fresh instance with an image loaded but
detect_faces never run, the _faces attribute was never assigned, so
overlay_image raises AttributeError at the truthiness test instead of
triggering a detection pass. -/
theorem C3_overlay_before_detect_raises :
    load_image FaceDetect.init (some img800) = Except.ok st800 ∧
    overlay_image [] [] (255, 0, 0) 2 st800 =
      Except.error (PyError.attributeError "_faces") := by
  exact ⟨rfl, rfl⟩

/-- Helper: the guard "if faces:" of source line 139 is equivalent to
mapping over the possibly empty list. -/
theorem map_if_isEmpty {α β : Type} (f : α → β) (l : List α) :
    (if l.isEmpty then ([] : List β) else l.map f) = l.map f := by
  cases l <;> simp

/-- Helper: on a state with a loaded image and a set scale factor,
detect_faces succeeds and returns every raw detection scaled, the frontal
ones first, the profile ones appended only when requested. -/
theorem detect_faces_eq (frontal profile : List RawDet) (b : Bool)
    (s : FaceDetectState) (im : IplImage) (k : Nat)
    (him : s.image = some (some im)) (hsc : s.image_scale = some k) :
    detect_faces frontal profile b s = Except.ok
      ({ s with
         _faces := some ((frontal ++ (if b then profile else [])).map (scaleDet k)) },
       (frontal ++ (if b then profile else [])).map (scaleDet k),
       [Event.detectPass b]) := by
  unfold detect_faces _prepare_image
  dsimp only
  rw [him, hsc]
  dsimp only
  rw [map_if_isEmpty]

/-- C4: every raw classifier rectangle (x, y, w, h) with neighbor count n
returned by a detection pass is appended to the result as a record whose
x, y, width and height are each multiplied by the scale factor and whose
neighbors equals n unchanged; at scale factor 2 the raw box
(10, 5, 40, 40) with 3 neighbors becomes (20, 10, 80, 80, 3). -/
theorem C4_rect_scaling (s s2 : FaceDetectState) (im : IplImage) (k : Nat)
    (frontal profile : List RawDet) (b : Bool) (fs : List FaceRect)
    (evs : List Event)
    (him : s.image = some (some im)) (hsc : s.image_scale = some k)
    (hdet : detect_faces frontal profile b s = Except.ok (s2, fs, evs)) :
    fs.length = (frontal ++ (if b then profile else [])).length ∧
    (∀ i (hi : i < (frontal ++ (if b then profile else [])).length)
       (hi2 : i < fs.length),
      fs[i] = { x := (frontal ++ (if b then profile else []))[i].x * k,
                y := (frontal ++ (if b then profile else []))[i].y * k,
                width := (frontal ++ (if b then profile else []))[i].w * k,
                height := (frontal ++ (if b then profile else []))[i].h * k,
                neighbors := (frontal ++ (if b then profile else []))[i].n }) ∧
    scaleDet 2 ⟨10, 5, 40, 40, 3⟩ = ⟨20, 10, 80, 80, 3⟩ := by
  rw [detect_faces_eq frontal profile b s im k him hsc] at hdet
  simp only [Except.ok.injEq, Prod.mk.injEq] at hdet
  obtain ⟨-, hfs, -⟩ := hdet
  subst hfs
  refine ⟨by simp, ?_, rfl⟩
  intro i hi hi2
  simp only [List.getElem_map, scaleDet]

/-- Witness for C4: at scale factor 2 the raw detection (10, 5, 40, 40)
with 3 neighbors is reported as the face record (20, 10, 80, 80, 3). -/
theorem C4_rect_scaling_witness :
    ([FaceRect.mk 20 10 80 80 3] : List FaceRect)[0] =
      FaceRect.mk 20 10 80 80 3 ∧
    scaleDet 2 ⟨10, 5, 40, 40, 3⟩ = FaceRect.mk 20 10 80 80 3 := by
  have h := C4_rect_scaling st2000
    { st2000 with _faces := some [FaceRect.mk 20 10 80 80 3] } img2000 2
    [RawDet.mk 10 5 40 40 3] [] false [FaceRect.mk 20 10 80 80 3]
    [Event.detectPass false] rfl rfl rfl
  exact ⟨by simpa using h.2.1 0 Nat.one_pos Nat.one_pos, h.2.2⟩

/-- C7: a detection pass with profiles enabled returns exactly the frontal
matches followed by the profile matches, each scaled; the length is the
frontal count plus the profile count and nothing is deduplicated. -/
theorem C7_profile_append (s s2 : FaceDetectState) (im : IplImage) (k : Nat)
    (frontal profile : List RawDet) (fs : List FaceRect) (evs : List Event)
    (him : s.image = some (some im)) (hsc : s.image_scale = some k)
    (hdet : detect_faces frontal profile true s = Except.ok (s2, fs, evs)) :
    fs.length = frontal.length + profile.length ∧
    fs.take frontal.length = frontal.map (scaleDet k) ∧
    fs.drop frontal.length = profile.map (scaleDet k) := by
  rw [detect_faces_eq frontal profile true s im k him hsc] at hdet
  simp only [Except.ok.injEq, Prod.mk.injEq] at hdet
  obtain ⟨-, hfs, -⟩ := hdet
  subst hfs
  refine ⟨by simp, ?_, ?_⟩
  · have h := List.take_left (frontal.map (scaleDet k))
      (profile.map (scaleDet k))
    simpa [List.map_append] using h
  · have h := List.drop_left (frontal.map (scaleDet k))
      (profile.map (scaleDet k))
    simpa [List.map_append] using h

/-- Witness for C7: one frontal and one profile match at scale factor 2
give a two-element result, frontal first. -/
theorem C7_profile_append_witness :
    ([FaceRect.mk 20 10 80 80 3, FaceRect.mk 200 200 100 100 4] :
        List FaceRect).length = 1 + 1 ∧
    ([FaceRect.mk 20 10 80 80 3, FaceRect.mk 200 200 100 100 4] :
        List FaceRect).take 1 = [RawDet.mk 10 5 40 40 3].map (scaleDet 2) ∧
    ([FaceRect.mk 20 10 80 80 3, FaceRect.mk 200 200 100 100 4] :
        List FaceRect).drop 1 =
      [RawDet.mk 100 100 50 50 4].map (scaleDet 2) := by
  have h := C7_profile_append st2000
    { st2000 with _faces := some [FaceRect.mk 20 10 80 80 3,
        FaceRect.mk 200 200 100 100 4] } img2000 2
    [RawDet.mk 10 5 40 40 3] [RawDet.mk 100 100 50 50 4]
    [FaceRect.mk 20 10 80 80 3, FaceRect.mk 200 200 100 100 4]
    [Event.detectPass true] rfl rfl rfl
  exact h

/-- C8: when both cascades find zero matches, detect_faces succeeds with
the empty sequence, and to_json on the resulting state returns the
two-character string of an empty json array. -/
theorem C8_empty_detection_json (s : FaceDetectState) (im : IplImage)
    (k : Nat) (b : Bool)
    (him : s.image = some (some im)) (hsc : s.image_scale = some k) :
    ∃ s2, detect_faces [] [] b s =
        Except.ok (s2, [], [Event.detectPass b]) ∧
      to_json s2 = Except.ok "[]" := by
  have h := detect_faces_eq [] [] b s im k him hsc
  simp only [List.nil_append, ite_self, List.map_nil] at h
  exact ⟨_, h, rfl⟩

/-- Witness for C8 at a concrete loaded state with no classifier matches. -/
theorem C8_empty_detection_json_witness :
    ∃ s2, detect_faces [] [] false st2000 =
        Except.ok (s2, [], [Event.detectPass false]) ∧
      to_json s2 = Except.ok "[]" := by
  exact C8_empty_detection_json st2000 img2000 2 false rfl rfl

/-- C5 refuted as stated: detect_faces on a fresh instance fails, but with
a generic AttributeError for the unset image attribute, not with the
dedicated NoImageLoadedError kind the claim names (no such kind exists in
the code). -/
theorem C5_no_dedicated_error_counterexample :
    detect_faces [] [] false FaceDetect.init =
      Except.error (PyError.attributeError "image") ∧
    detect_faces [] [] false FaceDetect.init ≠
      Except.error PyError.noImageLoadedError := by
  refine ⟨rfl, ?_⟩
  intro h
  have h2 : (Except.error (PyError.attributeError "image") :
      Except PyError (FaceDetectState × List FaceRect × List Event)) =
      Except.error PyError.noImageLoadedError := h
  injection h2 with h3
  exact PyError.noConfusion h3

/-- C5 amended: calling detect_faces on any state on which load_image was
never called (image attribute unset) fails, with the generic AttributeError
for the image attribute propagated unmodified to the caller. -/
theorem C5_unloaded_detect_attribute_error (frontal profile : List RawDet)
    (b : Bool) (s : FaceDetectState) (h : s.image = none) :
    detect_faces frontal profile b s =
      Except.error (PyError.attributeError "image") := by
  unfold detect_faces _prepare_image
  dsimp only
  rw [h]

/-- Witness for the amended C5 on a fresh instance. -/
theorem C5_unloaded_detect_attribute_error_witness :
    detect_faces [] [] true FaceDetect.init =
      Except.error (PyError.attributeError "image") :=
  C5_unloaded_detect_attribute_error [] [] true FaceDetect.init rfl

/-- C6 refuted as stated: when the capture device cannot be opened,
image_from_input returns silently with the state unchanged — it does not
fail with the DeviceUnavailableError kind the claim names (no such kind
exists in the code). -/
theorem C6_no_device_error_counterexample :
    image_from_input ⟨false, none⟩ 0 FaceDetect.init =
      Except.ok FaceDetect.init ∧
    image_from_input ⟨false, none⟩ 0 FaceDetect.init ≠
      Except.error PyError.deviceUnavailableError := by
  refine ⟨rfl, ?_⟩
  intro h
  have h2 : (Except.ok FaceDetect.init :
      Except PyError FaceDetectState) =
      Except.error PyError.deviceUnavailableError := h
  exact Except.noConfusion h2

/-- C6 amended: when the device does not open, image_from_input silently
does nothing; when it opens but yields no frame, load_image(None) raises
AttributeError; when it yields a frame, exactly that one frame is
delegated to load_image and the capture handle is then retained. -/
theorem C6_device_behavior (dev : CaptureDevice) (i : Nat)
    (s s1 : FaceDetectState) (im : IplImage) :
    (dev.opens = false → image_from_input dev i s = Except.ok s) ∧
    (dev.opens = true → dev.frame = none →
      image_from_input dev i s =
        Except.error (PyError.attributeError "width")) ∧
    (dev.opens = true → dev.frame = some im →
      load_image s (some im) = Except.ok s1 →
      image_from_input dev i s = Except.ok { s1 with capture := some i }) := by
  refine ⟨?_, ?_, ?_⟩
  · intro h
    unfold image_from_input
    rw [h]
    rfl
  · intro h1 h2
    unfold image_from_input
    rw [h1, h2]
    rfl
  · intro h1 h2 h3
    unfold image_from_input
    rw [h1, h2, h3]
    rfl

/-- Witness for the amended C6: an open device with an 800 by 600 frame
loads that frame and retains the capture handle. -/
theorem C6_device_behavior_witness :
    image_from_input ⟨true, some img800⟩ 7 FaceDetect.init =
      Except.ok { st800 with capture := some 7 } :=
  (C6_device_behavior ⟨true, some img800⟩ 7 FaceDetect.init st800
    img800).2.2 rfl rfl rfl

/-- A loaded 800 by 600 state with an empty detection result, already
overlayed. -/
def stOv : FaceDetectState :=
  { image := some (some img800), image_scale := some 1, _faces := some [],
    is_overlayed := true, capture := none }

/-- C9: whenever overlay_image returns, the returned state has the
is_overlayed flag set, also when the face list is empty and nothing gets
drawn; and save_image on a state already flagged overlayed writes the
stored image directly, with no overlay or detection pass in its trace. -/
theorem C9_overlay_flag_and_save (frontal profile : List RawDet)
    (rgb : Nat × Nat × Nat) (w : Nat) (fn : String)
    (s s' : FaceDetectState) (evs : List Event) (img : Option IplImage) :
    (overlay_image frontal profile rgb w s = Except.ok (s', evs) →
      s'.is_overlayed = true) ∧
    (s.is_overlayed = true → s.image = some img →
      save_image frontal profile fn s =
        Except.ok (s, [Event.writeImage fn img])) := by
  constructor
  · intro h
    unfold overlay_image at h
    dsimp only at h
    split at h
    · exact Except.noConfusion h
    · split at h
      · exact Except.noConfusion h
      · split at h
        · exact Except.noConfusion h
        · split at h
          · exact Except.noConfusion h
          · split at h
            · exact Except.noConfusion h
            · simp only [Except.ok.injEq, Prod.mk.injEq] at h
              obtain ⟨h1, -⟩ := h
              subst h1
              rfl
  · intro hov him
    unfold save_image
    simp [hov, him]

/-- Witness for C9: overlay on a state with an empty stored face list ends
with the flag set, and save_image on an overlayed state only writes. -/
theorem C9_overlay_flag_and_save_witness :
    stOv.is_overlayed = true ∧
    save_image [] [] "out.png" stOv =
      Except.ok (stOv, [Event.writeImage "out.png" (some img800)]) := by
  constructor
  · exact (C9_overlay_flag_and_save [] [] (255, 0, 0) 2 "out.png" stOv stOv
      [Event.detectPass false] (some img800)).1 rfl
  · exact (C9_overlay_flag_and_save [] [] (255, 0, 0) 2 "out.png" stOv stOv
      [Event.detectPass false] (some img800)).2 rfl rfl

/-- A concrete 1999 by 500 image: wider than 1000 yet scale factor 1. -/
def img1999 : IplImage := { width := 1999, height := 500, drawn := [] }

/-- C10: the scale factor stored by load_image is an integer at least 1
(floor division of the larger dimension by 1000, never fractional), every
reported face coordinate is an exact integer multiple of the corresponding
raw classifier value, and a 1999 pixel wide image at least as wide as tall
gets scale factor 1. -/
theorem C10_integer_scale (s s' s2 : FaceDetectState) (im : IplImage)
    (k : Nat) (frontal profile : List RawDet) (b : Bool)
    (fs : List FaceRect) (evs : List Event) (f : FaceRect)
    (hload : load_image s (some im) = Except.ok s')
    (hk : s'.image_scale = some k)
    (hdet : detect_faces frontal profile b s' = Except.ok (s2, fs, evs))
    (hf : f ∈ fs) :
    1 ≤ k ∧
    (∃ d ∈ frontal ++ (if b then profile else []), f = scaleDet k d ∧
      d.x ∣ f.x ∧ d.y ∣ f.y ∧ d.w ∣ f.width ∧ d.h ∣ f.height ∧
      f.neighbors = d.n) ∧
    (im.width = 1999 → im.height ≤ im.width → k = 1) := by
  rw [load_image_some_eq] at hload
  have hs' : s' = { s with
      image := some (some im)
      image_scale := some (max 1 (max im.width im.height / 1000)) } :=
    (Except.ok.inj hload).symm
  subst hs'
  have hkk : max 1 (max im.width im.height / 1000) = k := Option.some.inj hk
  rw [detect_faces_eq frontal profile b _ im k rfl hk] at hdet
  simp only [Except.ok.injEq, Prod.mk.injEq] at hdet
  obtain ⟨-, hfs, -⟩ := hdet
  subst hfs
  obtain ⟨d, hd, hfd⟩ := List.mem_map.mp hf
  subst hfd
  refine ⟨by omega, ⟨d, hd, rfl, ?_, ?_, ?_, ?_, rfl⟩, ?_⟩
  · exact dvd_mul_right d.x k
  · exact dvd_mul_right d.y k
  · exact dvd_mul_right d.w k
  · exact dvd_mul_right d.h k
  · intro hw hh
    omega

/-- Witness for C10: loading the 1999 by 500 image gives scale factor 1,
and a raw detection (10, 5, 40, 40, 3) is reported as its own exact
multiples. -/
theorem C10_integer_scale_witness :
    1 ≤ 1 ∧
    (∃ d ∈ [RawDet.mk 10 5 40 40 3] ++
        (if false then ([] : List RawDet) else []),
      FaceRect.mk 10 5 40 40 3 = scaleDet 1 d ∧ d.x ∣ 10 ∧ d.y ∣ 5 ∧
      d.w ∣ 40 ∧ d.h ∣ 40 ∧ (3 : Nat) = d.n) ∧
    ((1999 : Nat) = 1999 → (500 : Nat) ≤ 1999 → 1 = 1) := by
  exact C10_integer_scale FaceDetect.init
    { image := some (some img1999), image_scale := some 1, _faces := none,
      is_overlayed := false, capture := none }
    { image := some (some img1999), image_scale := some 1,
      _faces := some [FaceRect.mk 10 5 40 40 3], is_overlayed := false,
      capture := none }
    img1999 1 [RawDet.mk 10 5 40 40 3] [] false
    [FaceRect.mk 10 5 40 40 3] [Event.detectPass false]
    (FaceRect.mk 10 5 40 40 3) rfl rfl rfl (by simp)
